import Mathlib

/-!
Verification of the inventory-management repository's specification.

The repository consists of three source files:
* `client/src/app/redux.tsx` — the Redux store/persistence setup and the
  Redux Toolkit Query API slice (DTO interfaces, endpoints, tags);
* an unnamed SQL migration file (DDL statements over tables
  `Purchases`, `ExpenseSummary`, `Products`);
* `client/next.config.mjs` — the Next.js image remote-pattern allowlist.

This file shallowly embeds those artifacts and proves the claims of the
specification against the embedding.
-/

namespace InventoryApp

/-! ## DTO interfaces (from `redux.tsx`, lines 121–175)

TypeScript `string` becomes `String`, `number` becomes `Int` (no arithmetic
is ever performed on these fields, only field presence matters), and an
optional field `f?: T` becomes `Option T`. -/

structure Product where
  productId : String
  name : String
  price : Int
  rating : Option Int
  stockQuantity : Int
deriving DecidableEq, Repr

structure NewProduct where
  name : String
  price : Int
  rating : Option Int
  stockQuantity : Int
deriving DecidableEq, Repr

structure SalesSummary where
  salesSummaryId : String
  totalValue : Int
  changePercentage : Option Int
  date : String
deriving DecidableEq, Repr

structure PurchaseSummary where
  purchaseSummaryId : String
  totalPurchased : Int
  changePercentage : Option Int
  date : String
deriving DecidableEq, Repr

structure ExpenseSummary where
  expenseSummarId : String
  totalExpenses : Int
  date : String
deriving DecidableEq, Repr

structure ExpenseByCategorySummary where
  expenseByCategorySummaryId : String
  category : String
  amount : String
  date : String
deriving DecidableEq, Repr

structure DashboardMetrics where
  popularProducts : List Product
  salesSummary : List SalesSummary
  purchaseSummary : List PurchaseSummary
  expenseSummary : List ExpenseSummary
  expenseByCategorySummary : List ExpenseByCategorySummary
deriving DecidableEq, Repr

structure User where
  userId : String
  name : String
  email : String
deriving DecidableEq, Repr

/-! ## The API slice (from `redux.tsx`, lines 177–244) -/

/-- The cache tags declared by `tagTypes` in `createApi`. -/
inductive Tag where
  | DashboardMetrics
  | Products
  | Users
  | Expenses
deriving DecidableEq, BEq, Repr

/-- HTTP method of a request built by an endpoint's `query` function.
`fetchBaseQuery` defaults to GET when no method is given. -/
inductive HttpMethod where
  | GET
  | POST
deriving DecidableEq, Repr

/-- The request description an endpoint's `query` function produces:
a url, a method, query-string params, and an optional JSON body.
The only body ever sent by this API slice is a `NewProduct`. -/
structure Request where
  url : String
  method : HttpMethod
  params : List (String × String)
  body : Option NewProduct
deriving DecidableEq, Repr

/-- Result type declared by an endpooint's first type argument to
`build.query` / `build.mutation`. -/
inductive ApiResultType where
  | dashboardMetrics
  | productList
  | product
  | userList
  | expenseByCategorySummaryList
deriving DecidableEq, BEq, Repr

/-- Argument type declared by an endpoint's second type argument. -/
inductive ApiArgType where
  | void
  | stringOrVoid
  | newProduct
deriving DecidableEq, BEq, Repr

/-- The declarative part of one endpoint of the API slice: its name,
whether it was declared with `build.mutation` (vs `build.query`), its
declared argument and result types, and its `providesTags` /
`invalidatesTags` lists (RTK queries declare no `invalidatesTags` and
mutations declare no `providesTags`; those are the empty list here). -/
structure EndpointInfo where
  name : String
  isMutation : Bool
  argType : ApiArgType
  resultType : ApiResultType
  providesTags : List Tag
  invalidatesTags : List Tag
deriving DecidableEq, Repr

/-- `getDashboardMetrics: build.query<DashboardMetrics, void>`. -/
def getDashboardMetrics_info : EndpointInfo :=
  { name := "getDashboardMetrics"
    isMutation := false
    argType := ApiArgType.void
    resultType := ApiResultType.dashboardMetrics
    providesTags := [Tag.DashboardMetrics]
    invalidatesTags := [] }

/-- `query: () => "/dashboard"`: a bare string is a GET to that url with
no params and no body. -/
def getDashboardMetrics_query : Request :=
  { url := "/dashboard", method := HttpMethod.GET, params := [], body := none }

/-- `getProducts: build.query<Product[], string | void>`. -/
def getProducts_info : EndpointInfo :=
  { name := "getProducts"
    isMutation := false
    argType := ApiArgType.stringOrVoid
    resultType := ApiResultType.productList
    providesTags := [Tag.Products]
    invalidatesTags := [] }

/-- JavaScript truthiness of a `string | void` value: `undefined` and the
empty string are falsy, every other string is truthy. -/
def jsTruthy : Option String → Bool
  | none => false
  | some s => !(s == "")

/-- `query: (search) => ({ url: "/products", params: search ? { search } : {} })`. -/
def getProducts_query (search : Option String) : Request :=
  { url := "/products"
    method := HttpMethod.GET
    params := if jsTruthy search then [("search", search.getD "")] else []
    body := none }

/-- `createProduct: build.mutation<Product, NewProduct>`. -/
def createProduct_info : EndpointInfo :=
  { name := "createProduct"
    isMutation := true
    argType := ApiArgType.newProduct
    resultType := ApiResultType.product
    providesTags := []
    invalidatesTags := [Tag.Products] }

/-- `query: (newProduct) => ({ url: "/products", method: "POST", body: newProduct })`. -/
def createProduct_query (newProduct : NewProduct) : Request :=
  { url := "/products"
    method := HttpMethod.POST
    params := []
    body := some newProduct }

/-- `getUsers: build.query<User[], void>`. -/
def getUsers_info : EndpointInfo :=
  { name := "getUsers"
    isMutation := false
    argType := ApiArgType.void
    resultType := ApiResultType.userList
    providesTags := [Tag.Users]
    invalidatesTags := [] }

/-- `query: () => "/users"`. -/
def getUsers_query : Request :=
  { url := "/users", method := HttpMethod.GET, params := [], body := none }

/-- `getExpensesByCategory: build.query<ExpenseByCategorySummary[], void>`. -/
def getExpensesByCategory_info : EndpointInfo :=
  { name := "getExpensesByCategory"
    isMutation := false
    argType := ApiArgType.void
    resultType := ApiResultType.expenseByCategorySummaryList
    providesTags := [Tag.Expenses]
    invalidatesTags := [] }

/-- `query: () => "/expenses"`. -/
def getExpensesByCategory_query : Request :=
  { url := "/expenses", method := HttpMethod.GET, params := [], body := none }

/-- The five endpoints of the API slice, in declaration order. -/
def apiEndpoints : List EndpointInfo :=
  [getDashboardMetrics_info, getProducts_info, createProduct_info,
   getUsers_info, getExpensesByCategory_info]

/-- The `tagTypes` list of `createApi`. -/
def tagTypes : List Tag :=
  [Tag.DashboardMetrics, Tag.Products, Tag.Users, Tag.Expenses]

/-! ## Store persistence (from `redux.tsx`, lines 26–59) -/

/-- The state of a browser key-value storage (e.g. `window.localStorage`). -/
structure StorageState where
  entries : List (String × String)
deriving DecidableEq, Repr

/-- A storage engine as `redux-persist` sees it: `getItem` resolves to a
value (or null) and leaves the store as is; `setItem` and `removeItem`
resolve after updating the store. Promises are modelled by explicit state
passing of the resolved effect. -/
structure StorageEngine where
  getItem : StorageState → String → Option String × StorageState
  setItem : StorageState → String → String → StorageState
  removeItem : StorageState → String → StorageState

/-- `createNoopStorage` (lines 27–40): every `getItem()` resolves to
`null`; `setItem()` and `removeItem()` resolve without touching any
storage state. -/
def createNoopStorage : StorageEngine :=
  { getItem := fun st _ => (none, st)
    setItem := fun st _ _ => st
    removeItem := fun st _ => st }

/-- Modelled from the spec: `createWebStorage("local")` comes from the
`redux-persist` library, not from this repository; it is modelled as the
browser's local storage, a key-value store whose `setItem` overwrites the
value for the key and whose `removeItem` deletes it. -/
def createWebStorage (_kind : String) : StorageEngine :=
  { getItem := fun st k => (st.entries.lookup k, st)
    setItem := fun st k v =>
      ⟨st.entries.filter (fun e => !(e.1 == k)) ++ [(k, v)]⟩
    removeItem := fun st k => ⟨st.entries.filter (fun e => !(e.1 == k))⟩ }

/-- `storage` (lines 42–45): `typeof window === "undefined" ?
createNoopStorage() : createWebStorage("local")`. The boolean argument is
whether `window` is undefined (server-side rendering). -/
def storage (windowUndefined : Bool) : StorageEngine :=
  if windowUndefined then createNoopStorage else createWebStorage "local"

/-- `persistConfig.key` (line 49). -/
def persistConfig_key : String := "root"

/-- `persistConfig.whitelist` (line 51). -/
def persistConfig_whitelist : List String := ["global"]

/-- `api.reducerPath` (line 180 of the api slice): `"api"`. -/
def api_reducerPath : String := "api"

/-- The top-level slice keys of `rootReducer = combineReducers({ global:
globalReducer, [api.reducerPath]: api.reducer })` (lines 54–57). -/
def rootReducer_keys : List String := ["global", api_reducerPath]

/-- Modelled from the spec: the whitelist semantics of
`persistReducer` come from the `redux-persist` library, not from this
repository; with a `whitelist`, only the listed top-level slice keys of
the wrapped reducer are persisted to storage under `persistConfig.key`. -/
def persistedSliceKeys : List String :=
  rootReducer_keys.filter (fun k => persistConfig_whitelist.contains k)

/-! ## The SQL migration (the unnamed DDL file)

The file contains four `ALTER TABLE` commands; the second one carries two
actions (`DROP COLUMN` then `ADD COLUMN`), so the migration is a sequence
of five DDL actions. -/

/-- Referential action of a foreign-key constraint. -/
inductive RefAction where
  | restrict
  | cascade
deriving DecidableEq, BEq, Repr

/-- A foreign-key constraint: its name, the constrained table and column,
and the referenced table and column, with its referential actions. -/
structure ForeignKey where
  name : String
  table : String
  column : String
  refTable : String
  refColumn : String
  onDelete : RefAction
  onUpdate : RefAction
deriving DecidableEq, BEq, Repr

/-- One DDL action of the migration. -/
inductive DdlStmt where
  | dropConstraint (table constraint : String)
  | dropColumn (table column : String)
  | addColumn (table column ty : String) (notNull : Bool)
  | setNotNull (table column : String)
  | addForeignKey (fk : ForeignKey)
deriving DecidableEq, Repr

/-- The DDL actions of the migration file, in order:
`ALTER TABLE "Purchases" DROP CONSTRAINT "Purchases_productId_fkey"`;
`ALTER TABLE "ExpenseSummary" DROP COLUMN "date", ADD COLUMN "date"
TIMESTAMP(3) NOT NULL`;
`ALTER TABLE "Purchases" ALTER COLUMN "productId" SET NOT NULL`;
`ALTER TABLE "Purchases" ADD CONSTRAINT "Purchases_productId_fkey"
FOREIGN KEY ("productId") REFERENCES "Products"("productId")
ON DELETE RESTRICT ON UPDATE CASCADE`. -/
def migration : List DdlStmt :=
  [DdlStmt.dropConstraint "Purchases" "Purchases_productId_fkey",
   DdlStmt.dropColumn "ExpenseSummary" "date",
   DdlStmt.addColumn "ExpenseSummary" "date" "TIMESTAMP(3)" true,
   DdlStmt.setNotNull "Purchases" "productId",
   DdlStmt.addForeignKey
     { name := "Purchases_productId_fkey"
       table := "Purchases"
       column := "productId"
       refTable := "Products"
       refColumn := "productId"
       onDelete := RefAction.restrict
       onUpdate := RefAction.cascade }]

/-- Whether a DDL action only adds a column, constraint or table
(`SET NOT NULL` adds a NOT NULL constraint); `DROP COLUMN` and
`DROP CONSTRAINT` are not additive. -/
def DdlStmt.additive : DdlStmt → Bool
  | DdlStmt.dropConstraint _ _ => false
  | DdlStmt.dropColumn _ _ => false
  | DdlStmt.addColumn _ _ _ _ => true
  | DdlStmt.setNotNull _ _ => true
  | DdlStmt.addForeignKey _ => true

/-- A column of the relational schema: its table, name, type and whether
it is NOT NULL. -/
structure Column where
  table : String
  name : String
  ty : String
  notNull : Bool
deriving DecidableEq, Repr

/-- A snapshot of the relational schema: its columns and its foreign-key
constraints. -/
structure SchemaState where
  columns : List Column
  fks : List ForeignKey
deriving DecidableEq, Repr

/-- The effect of one DDL action on a schema snapshot, following standard
SQL DDL semantics: drops remove the named object, adds append it, and
`SET NOT NULL` marks the named column NOT NULL. -/
def applyStmt (st : SchemaState) : DdlStmt → SchemaState
  | DdlStmt.dropConstraint t c =>
      { st with fks := st.fks.filter (fun fk => !(fk.table == t && fk.name == c)) }
  | DdlStmt.dropColumn t c =>
      { st with columns := st.columns.filter (fun col => !(col.table == t && col.name == c)) }
  | DdlStmt.addColumn t c ty nn =>
      { st with columns := st.columns ++ [{ table := t, name := c, ty := ty, notNull := nn }] }
  | DdlStmt.setNotNull t c =>
      { st with columns := st.columns.map (fun col =>
          if col.table == t && col.name == c then { col with notNull := true } else col) }
  | DdlStmt.addForeignKey fk =>
      { st with fks := st.fks ++ [fk] }

/-- Running the whole migration on an initial schema snapshot. -/
def runMigration (st : SchemaState) : SchemaState :=
  migration.foldl applyStmt st

/-- The foreign key the migration re-adds on `Purchases.productId`. -/
def purchasesProductFk : ForeignKey :=
  { name := "Purchases_productId_fkey"
    table := "Purchases"
    column := "productId"
    refTable := "Products"
    refColumn := "productId"
    onDelete := RefAction.restrict
    onUpdate := RefAction.cascade }

/-! ## Next.js image configuration (from `next.config.mjs`) -/

/-- One entry of `images.remotePatterns`. Absent fields are `none`; in the
config file `port` is the literal `""` (meaning: the URL must carry no
explicit port). -/
structure RemotePattern where
  protocol : Option String
  hostname : String
  port : Option String
  pathname : Option String
deriving DecidableEq, Repr

/-- The `images.remotePatterns` allowlist of `nextConfig`. -/
def nextConfig_remotePatterns : List RemotePattern :=
  [{ protocol := some "https"
     hostname := "s3-evvieai.s3.us-west-2.amazonaws.com"
     port := some ""
     pathname := some "/**" }]

/-- The components of a remote image URL: protocol, hostname, explicit
port (`""` when none) and pathname. -/
structure UrlParts where
  protocol : String
  hostname : String
  port : String
  pathname : String
deriving DecidableEq, Repr

/-- Modelled from the spec: the matching of `remotePatterns` is Next.js
framework behavior, not code of this repository. A URL matches a pattern
when each specified field agrees with the URL; the pathname pattern is a
glob, of which only the two forms occurring in scope are interpreted
(`"/**"` matches every pathname, any other pattern matches literally). -/
def pathnameMatches : Option String → String → Bool
  | none, _ => true
  | some pat, p => if pat == "/**" then true else pat == p

/-- Modelled from the spec: whether a URL matches one `remotePatterns`
entry (see `pathnameMatches`). -/
def matchesRemotePattern (pat : RemotePattern) (u : UrlParts) : Bool :=
  (match pat.protocol with | none => true | some pr => pr == u.protocol) &&
  (pat.hostname == u.hostname) &&
  (match pat.port with | none => true | some po => po == u.port) &&
  pathnameMatches pat.pathname u.pathname

/-- A remote image URL is allowed when some entry of the allowlist
matches it. -/
def allowedRemoteImage (u : UrlParts) : Bool :=
  nextConfig_remotePatterns.any (fun pat => matchesRemotePattern pat u)

/-- Attaching a `productId` to a creation payload yields a `Product`
with the same remaining fields. -/
def NewProduct.withId (pid : String) (n : NewProduct) : Product :=
  { productId := pid
    name := n.name
    price := n.price
    rating := n.rating
    stockQuantity := n.stockQuantity }

/-- Forgetting the `productId` of a `Product` yields a `NewProduct`
with the same remaining fields. -/
def Product.dropId (p : Product) : NewProduct :=
  { name := p.name
    price := p.price
    rating := p.rating
    stockQuantity := p.stockQuantity }

/-! ## Claims -/

/-- Claim C1: invoking the `createProduct` mutation issues a POST request
to the `/products` URL with the given `NewProduct` object as the request
body, returns a `Product`, and invalidates the `"Products"` cache tag. -/
theorem createProduct_posts_and_invalidates :
    createProduct_info.isMutation = true
    ∧ createProduct_info.resultType = ApiResultType.product
    ∧ createProduct_info.invalidatesTags = [Tag.Products]
    ∧ ∀ p : NewProduct, createProduct_query p =
        { url := "/products", method := HttpMethod.POST, params := [], body := some p } :=
  ⟨rfl, rfl, rfl, fun _ => rfl⟩

/-- Claim C2, counterexample: the migration is not additive — its very
first action drops the existing constraint `Purchases_productId_fkey`,
and its second drops the existing column `ExpenseSummary.date`. -/
theorem migration_contains_drops :
    migration.all DdlStmt.additive = false
    ∧ DdlStmt.dropConstraint "Purchases" "Purchases_productId_fkey" ∈ migration
    ∧ DdlStmt.dropColumn "ExpenseSummary" "date" ∈ migration := by
  decide

/-- Claim C2, amended: the DDL migration is not purely additive — it
drops the constraint `Purchases_productId_fkey` and the column
`ExpenseSummary.date` — but each drop is followed, later in the same
migration, by an action re-adding an object of the same name on the same
table (the column with type `TIMESTAMP(3) NOT NULL`, the constraint as a
foreign key to `Products.productId`). -/
theorem migration_drops_recreated :
    migration.all DdlStmt.additive = false
    ∧ migration.get ⟨1, by decide⟩ = DdlStmt.dropColumn "ExpenseSummary" "date"
    ∧ migration.get ⟨2, by decide⟩ = DdlStmt.addColumn "ExpenseSummary" "date" "TIMESTAMP(3)" true
    ∧ migration.get ⟨0, by decide⟩ = DdlStmt.dropConstraint "Purchases" "Purchases_productId_fkey"
    ∧ migration.get ⟨4, by decide⟩ = DdlStmt.addForeignKey purchasesProductFk
    ∧ purchasesProductFk.table = "Purchases"
    ∧ purchasesProductFk.name = "Purchases_productId_fkey" :=
  ⟨by decide, rfl, rfl, rfl, rfl, rfl, rfl⟩

/-- Claim C3, counterexample: the state persisted to local storage under
key `"root"` does not cover the application's CRUD cache — the api
slice's key (`api.reducerPath`) is a top-level key of the root reducer
but is excluded from persistence by the whitelist. -/
theorem api_cache_not_persisted :
    persistConfig_key = "root"
    ∧ api_reducerPath ∈ rootReducer_keys
    ∧ api_reducerPath ∉ persistedSliceKeys := by
  decide

/-- Claim C3, amended: the state persisted to browser local storage under
key `"root"` covers only the `global` application-state slice; the
tag-cached query results of the api slice are excluded from persistence
by the whitelist. -/
theorem persisted_state_covers_global_only :
    persistConfig_key = "root" ∧ persistedSliceKeys = ["global"] := by
  decide

/-- Claim C4: the `getDashboardMetrics` query sends a single GET request
to the `/dashboard` endpoint and returns one `DashboardMetrics` aggregate
that bundles the collections `popularProducts`, `salesSummary`,
`purchaseSummary`, `expenseSummary`, and `expenseByCategorySummary`,
cached under the `"DashboardMetrics"` tag. -/
theorem getDashboardMetrics_single_fetch :
    getDashboardMetrics_info.isMutation = false
    ∧ getDashboardMetrics_query =
        { url := "/dashboard", method := HttpMethod.GET, params := [], body := none }
    ∧ getDashboardMetrics_info.resultType = ApiResultType.dashboardMetrics
    ∧ getDashboardMetrics_info.providesTags = [Tag.DashboardMetrics]
    ∧ ∀ m : DashboardMetrics,
        m = { popularProducts := m.popularProducts
              salesSummary := m.salesSummary
              purchaseSummary := m.purchaseSummary
              expenseSummary := m.expenseSummary
              expenseByCategorySummary := m.expenseByCategorySummary } :=
  ⟨rfl, rfl, rfl, rfl, fun _ => rfl⟩

/-- Claim C5: whatever schema the migration runs on, afterwards every
`Purchases.productId` column is NOT NULL and the foreign-key constraint
`Purchases_productId_fkey` referencing `Products.productId` (ON DELETE
RESTRICT, ON UPDATE CASCADE) is present, so referential integrity for
purchases is enforced by the relational schema. -/
theorem migration_enforces_purchase_integrity (st0 : SchemaState) (c : Column)
    (hc : c ∈ (runMigration st0).columns)
    (ht : c.table = "Purchases") (hn : c.name = "productId") :
    c.notNull = true ∧ purchasesProductFk ∈ (runMigration st0).fks := by
  have hcols : (runMigration st0).columns =
      ((st0.columns.filter (fun col => !(col.table == "ExpenseSummary" && col.name == "date"))) ++
        [Column.mk "ExpenseSummary" "date" "TIMESTAMP(3)" true]).map
        (fun col : Column => if col.table == "Purchases" && col.name == "productId"
          then { col with notNull := true } else col) := rfl
  have hfks : (runMigration st0).fks =
      (st0.fks.filter (fun fk =>
        !(fk.table == "Purchases" && fk.name == "Purchases_productId_fkey"))) ++
        [purchasesProductFk] := rfl
  constructor
  · rw [hcols] at hc
    obtain ⟨a, _, rfl⟩ := List.mem_map.1 hc
    by_cases h : (a.table == "Purchases" && a.name == "productId") = true
    · simp only [h, if_true]
    · simp only [h, if_false, Bool.false_eq_true] at ht hn
      simp [ht, hn] at h
  · rw [hfks]
    exact List.mem_append_right _ (List.mem_singleton.mpr rfl)

/-- Witness for C5: running the migration on a schema holding a nullable
`Purchases.productId` column yields that column NOT NULL and the
foreign key present. -/
theorem migration_enforces_purchase_integrity_witness :
    (Column.mk "Purchases" "productId" "TEXT" true ∈
        (runMigration (SchemaState.mk [Column.mk "Purchases" "productId" "TEXT" false] [])).columns)
    ∧ ((Column.mk "Purchases" "productId" "TEXT" true).notNull = true
       ∧ purchasesProductFk ∈
          (runMigration (SchemaState.mk [Column.mk "Purchases" "productId" "TEXT" false] [])).fks) :=
  ⟨by decide,
   migration_enforces_purchase_integrity
     (SchemaState.mk [Column.mk "Purchases" "productId" "TEXT" false] [])
     (Column.mk "Purchases" "productId" "TEXT" true) (by decide) rfl rfl⟩

/-- Claim C6: `createProduct` is the only mutation of the API slice, it
invalidates exactly the `"Products"` tag, and no endpoint invalidates the
`"DashboardMetrics"`, `"Users"` or `"Expenses"` tags, so creating a
product leaves those caches untouched. -/
theorem createProduct_only_mutation_frame :
    (apiEndpoints.filter (fun e => e.isMutation)).map (fun e => e.name) = ["createProduct"]
    ∧ createProduct_info.invalidatesTags = [Tag.Products]
    ∧ apiEndpoints.all (fun e =>
        !(e.invalidatesTags.contains Tag.DashboardMetrics)
        && !(e.invalidatesTags.contains Tag.Users)
        && !(e.invalidatesTags.contains Tag.Expenses)) = true := by
  refine ⟨rfl, rfl, by decide⟩

/-- Claim C7: the `Product` DTO consists of exactly the fields
`productId`, `name`, `price`, `rating` (optional) and `stockQuantity`,
and the `NewProduct` creation payload has the same fields except that it
carries no id: attaching an id to a `NewProduct` and forgetting it again
are mutually inverse. -/
theorem product_dto_fields :
    (∀ p : Product, p =
        { productId := p.productId, name := p.name, price := p.price,
          rating := p.rating, stockQuantity := p.stockQuantity })
    ∧ (∀ n : NewProduct, n =
        { name := n.name, price := n.price, rating := n.rating,
          stockQuantity := n.stockQuantity })
    ∧ (∀ (i : String) (n : NewProduct),
        (NewProduct.withId i n).productId = i ∧ Product.dropId (NewProduct.withId i n) = n)
    ∧ (∀ p : Product, NewProduct.withId p.productId (Product.dropId p) = p) :=
  ⟨fun _ => rfl, fun _ => rfl, fun _ _ => ⟨rfl, rfl⟩, fun _ => rfl⟩

/-- Claim C8: the Next.js image allowlist holds exactly one pattern, and
a remote URL is allowed exactly when its host is
`s3-evvieai.s3.us-west-2.amazonaws.com` over `https` with no explicit
port, whatever its pathname; no other remote host matches. -/
theorem image_allowlist_single_host :
    nextConfig_remotePatterns.length = 1
    ∧ ∀ u : UrlParts, allowedRemoteImage u = true ↔
        (u.protocol = "https"
         ∧ u.hostname = "s3-evvieai.s3.us-west-2.amazonaws.com"
         ∧ u.port = "") := by
  refine ⟨rfl, fun u => ?_⟩
  constructor
  · intro h
    simp [allowedRemoteImage, nextConfig_remotePatterns, matchesRemotePattern,
      pathnameMatches] at h
    exact ⟨h.1.1.symm, h.1.2.symm, h.2.symm⟩
  · rintro ⟨h1, h2, h3⟩
    simp [allowedRemoteImage, nextConfig_remotePatterns, matchesRemotePattern,
      pathnameMatches, h1, h2, h3]

/-- Claim C9: when `window` is undefined (server-side rendering) the
storage engine is the noop storage: `getItem` resolves to null and
`setItem` / `removeItem` resolve without reading or writing any state,
so nothing is ever persisted or rehydrated on the server. -/
theorem ssr_storage_is_noop :
    storage true = createNoopStorage
    ∧ (∀ (st : StorageState) (k : String), createNoopStorage.getItem st k = (none, st))
    ∧ (∀ (st : StorageState) (k v : String), createNoopStorage.setItem st k v = st)
    ∧ (∀ (st : StorageState) (k : String), createNoopStorage.removeItem st k = st) :=
  ⟨rfl, fun _ _ => rfl, fun _ _ _ => rfl, fun _ _ => rfl⟩

/-- Claim C10: `getProducts` includes a `search` query parameter only for
a non-empty search string; for the empty string it builds the very
request built for no argument at all, a GET to `/products` with empty
params. -/
theorem getProducts_search_param :
    getProducts_query (some "") = getProducts_query none
    ∧ getProducts_query none =
        { url := "/products", method := HttpMethod.GET, params := [], body := none }
    ∧ ∀ s : String, getProducts_query (some s) =
        { url := "/products", method := HttpMethod.GET,
          params := if s = "" then [] else [("search", s)], body := none } := by
  refine ⟨by decide, by decide, fun s => ?_⟩
  by_cases h : s = ""
  · subst h; decide
  · simp [getProducts_query, jsTruthy, h]

end InventoryApp
